import Mathlib

/-!
Verification of the release-engineering agentic workflow repository.

The development shallowly embeds the two LangGraph workflows of the
repository: the joke pipeline of `src/agent/re_agent.py` and the
Slack-approval / Azure-DevOps pipeline of `src/agent/re_agent_v2.py`.
External collaborators (HTTP responses from Slack and Azure DevOps, the
language model) are passed in as explicit data, exceptions raised by the
Python runtime are modelled with `Except`, and Python's string and
truthiness semantics are modelled by small executable helpers.  The graph
executor itself (node sequencing and partial-state merging) is the
LangGraph library, which is not part of the repository's sources; those
definitions are modelled from the spec and are marked as such.
-/

/-! ## Models of the Python string primitives used by the sources -/

/-- Model of Python `str.strip()`: remove leading and trailing whitespace. -/
def pyStrip (s : String) : String :=
  String.mk (((s.data.dropWhile Char.isWhitespace).reverse.dropWhile Char.isWhitespace).reverse)

/-- Whether `p` occurs at the start of the second list. -/
def listStartsWith : List Char → List Char → Bool
  | [], _ => true
  | _ :: _, [] => false
  | p :: ps, c :: cs => (p = c) && listStartsWith ps cs

/-- Whether `p` occurs contiguously anywhere in the second list. -/
def listOccurs (p : List Char) : List Char → Bool
  | [] => p.isEmpty
  | c :: cs => listStartsWith p (c :: cs) || listOccurs p cs

/-- Model of Python `pat in s` on strings: substring occurrence. -/
def occursIn (pat s : String) : Bool := listOccurs pat.data s.data

/-- Model of Python `c in s` for a single-character `c`. -/
def charIn (c : Char) (s : String) : Bool := s.data.contains c

/-- Helper for `pySplit`: split a character list at a separator. -/
def splitChars (sep : Char) : List Char → List (List Char)
  | [] => [[]]
  | c :: cs =>
    let rest := splitChars sep cs
    if c = sep then [] :: rest
    else match rest with
      | [] => [[c]]
      | g :: gs => (c :: g) :: gs

/-- Model of Python `s.split(sep)` for a one-character separator. -/
def pySplit (s : String) (sep : Char) : List String :=
  (splitChars sep s.data).map String.mk

/-- Value of a non-empty all-digit character list, `none` otherwise. -/
def digitsVal : List Char → Option Nat
  | [] => none
  | [c] => if c.isDigit then some (c.toNat - 48) else none
  | c :: cs =>
    match digitsVal cs, (if c.isDigit then some (c.toNat - 48) else none) with
    | some rest, some d => some (d * 10 ^ cs.length + rest)
    | _, _ => none

/-- Model of Python `int(s)` on a string: strip whitespace, optional sign,
then decimal digits; `none` models the `ValueError` raise. -/
def pyInt (s : String) : Option Int :=
  match (pyStrip s).data with
  | '-' :: cs => (digitsVal cs).map (fun n => -(n : Int))
  | '+' :: cs => (digitsVal cs).map (fun n => (n : Int))
  | cs => (digitsVal cs).map (fun n => (n : Int))

/-- Model of Python `str.capitalize()`. -/
def pyCapitalize (s : String) : String :=
  match s.data with
  | [] => ""
  | c :: cs => String.mk (c.toUpper :: cs.map Char.toLower)

/-- Model of Python `str.lower()`. -/
def pyLower (s : String) : String := String.mk (s.data.map Char.toLower)

/-! ## Generic StateRecord and merge semantics

Modelled from the spec: the Engine's StateRecord is "a mapping from field
name (string) to value (string, integer, list, or nested record)"; each
node returns a partial update that the Engine merges "by overwrite into
the current StateRecord".  The merge itself is performed by the LangGraph
library and is not part of the repository's sources. -/

/-- Modelled from the spec: a StateRecord value (string, integer or list of
strings cover every field the two workflows use). -/
inductive Value where
  | str (s : String)
  | int (n : Int)
  | strs (l : List String)

/-- Modelled from the spec: a StateRecord is a mapping from field names to
values, here an association list without duplicate handling beyond
`setField`. -/
abbrev StateRecord := List (String × Value)

/-- Modelled from the spec: a partial update, the fields a node writes in
the order it writes them. -/
abbrev PartialRecord := List (String × Value)

/-- Overwrite field `k` with `v`, appending it if absent; no field is ever
removed. -/
def setField : StateRecord → String → Value → StateRecord
  | [], k, v => [(k, v)]
  | (k0, v0) :: rest, k, v =>
    if k0 = k then (k0, v) :: rest else (k0, v0) :: setField rest k v

/-- Modelled from the spec: merge a partial update into the record by
overwriting field by field, in the update's order. -/
def mergeUpdate (s : StateRecord) (u : PartialRecord) : StateRecord :=
  u.foldl (fun acc kv => setField acc kv.1 kv.2) s

/-- Look a field up in a StateRecord (first binding; `setField` keeps
bindings unique once inserted through it). -/
def getField : StateRecord → String → Option Value
  | [], _ => none
  | (k0, v0) :: rest, k => if k0 = k then some v0 else getField rest k

/-- The value a partial update writes for field `f`: the last binding of
`f` in the update, matching the overwrite order of `mergeUpdate`. -/
def updWrites : PartialRecord → String → Option Value
  | [], _ => none
  | kv :: rest, f =>
    match updWrites rest f with
    | some v => some v
    | none => if kv.1 = f then some kv.2 else none

/-! ## The joke workflow (`src/agent/re_agent.py`) -/

/-- A Python exception value. -/
inductive PyExn where
  | keyError (key : String)
  | other (msg : String)

/-- The joke workflow's graph state (`State` TypedDict of re_agent.py);
every key is optional at runtime since the run starts from `(topic)` only. -/
structure JokeState where
  topic : Option String := none
  joke : Option String := none
  improved_joke : Option String := none
  ask_for_applause : Option String := none
  final_joke : Option String := none

/-- A partial update produced by a joke-workflow node. -/
structure JokeUpdate where
  joke : Option String := none
  improved_joke : Option String := none
  ask_for_applause : Option String := none
  final_joke : Option String := none

/-- Model of the Python dict subscript `state[key]`: raises `KeyError` when
the key is absent. -/
def getItem (v : Option String) (key : String) : Except PyExn String :=
  match v with
  | some s => Except.ok s
  | none => Except.error (PyExn.keyError key)

/-- The joke workflow's LLM, one stub per prompt site (an external
collaborator, passed in as data). -/
structure JokeLLM where
  gen : String → String
  improve : String → String
  applause : String → String
  polish : String → String

/-- Node `generate_joke`: reads `state["topic"]` (raising `KeyError` when
absent) and writes the generated joke. -/
def generate_joke (llm : JokeLLM) (state : JokeState) : Except PyExn JokeUpdate := do
  let topic ← getItem state.topic "topic"
  Except.ok { joke := some (llm.gen topic) }

/-- Gate `check_punchline`: reads `state["joke"]` and returns `"Pass"` when
the joke contains `?` or `!`, else `"Fail"`. -/
def check_punchline (state : JokeState) : Except PyExn String := do
  let joke ← getItem state.joke "joke"
  if charIn '?' joke || charIn '!' joke then Except.ok "Pass" else Except.ok "Fail"

/-- Node `improve_joke`: reads `state["joke"]` and writes `improved_joke`. -/
def improve_joke (llm : JokeLLM) (state : JokeState) : Except PyExn JokeUpdate := do
  let joke ← getItem state.joke "joke"
  Except.ok { improved_joke := some (llm.improve joke) }

/-- Node `ask_for_applause`: reads `state["joke"]` and writes
`ask_for_applause`. -/
def ask_for_applause (llm : JokeLLM) (state : JokeState) : Except PyExn JokeUpdate := do
  let joke ← getItem state.joke "joke"
  Except.ok { ask_for_applause := some (llm.applause joke) }

/-- Node `polish_joke`: reads `state["improved_joke"]` and writes
`final_joke`. -/
def polish_joke (llm : JokeLLM) (state : JokeState) : Except PyExn JokeUpdate := do
  let improved ← getItem state.improved_joke "improved_joke"
  Except.ok { final_joke := some (llm.polish improved) }

/-- Keep the update's value when present, else the state's. -/
def ovw (u s : Option String) : Option String :=
  match u with
  | some v => some v
  | none => s

/-- Modelled from the spec: merge a joke-node partial update into the
state, field by field, update wins (the LangGraph merge). -/
def mergeJoke (s : JokeState) (u : JokeUpdate) : JokeState :=
  { topic := s.topic
    joke := ovw u.joke s.joke
    improved_joke := ovw u.improved_joke s.improved_joke
    ask_for_applause := ovw u.ask_for_applause s.ask_for_applause
    final_joke := ovw u.final_joke s.final_joke }

/-- Modelled from the spec: one run of the joke workflow's graph as built
in re_agent.py (START → generate_joke → gate check_punchline with mapping
Fail ↦ improve_joke, Pass ↦ ask_for_applause; improve_joke → polish_joke →
ask_for_applause → END), returning the final state and the list of
executed node names.  An exception raised by a node or the gate aborts the
run. -/
def runJoke (llm : JokeLLM) (init : JokeState) :
    Except PyExn (JokeState × List String) := do
  let u1 ← generate_joke llm init
  let s1 := mergeJoke init u1
  let label ← check_punchline s1
  if label = "Pass" then
    let u2 ← ask_for_applause llm s1
    let s2 := mergeJoke s1 u2
    Except.ok (s2, ["generate_joke", "ask_for_applause"])
  else
    let u2 ← improve_joke llm s1
    let s2 := mergeJoke s1 u2
    let u3 ← polish_joke llm s2
    let s3 := mergeJoke s2 u3
    let u4 ← ask_for_applause llm s3
    let s4 := mergeJoke s3 u4
    Except.ok (s4, ["generate_joke", "improve_joke", "polish_joke", "ask_for_applause"])

/-! ## The approval workflow (`src/agent/re_agent_v2.py`) -/

/-- A Slack message as consumed by the nodes (`message.get("user", "")` and
`message.get("text", "")`, absent keys already defaulted to `""`). -/
structure SlackMessage where
  user : String := ""
  text : String := ""

/-- One entry of the `conversations.list` payload; `get` on the Python
dict yields `none` for an absent key. -/
structure SlackChannel where
  name : Option String := none
  id : Option String := none

/-- The `conversations.list` HTTP response (`data.get("ok")` and
`data.get("channels", [])` already defaulted). -/
structure ChannelsResponse where
  status_code : Nat
  ok : Bool := false
  channels : List SlackChannel := []

/-- The `conversations.history` HTTP response. -/
structure HistoryResponse where
  status_code : Nat
  ok : Bool := false
  messages : List SlackMessage := []

/-- The inner loop of `get_slack_channel_id`: return the `id` of the first
channel whose `name` or `id` equals the requested name (the returned `id`
may itself be absent). -/
def findChannel (channel_name : String) : List SlackChannel → Option String
  | [] => none
  | c :: rest =>
    if c.name = some channel_name ∨ c.id = some channel_name then c.id
    else findChannel channel_name rest

/-- Helper `get_slack_channel_id`: on a 200/ok response scan the channel
list, otherwise return `None`; an exception from the HTTP call
propagates. -/
def get_slack_channel_id (call : Except String ChannelsResponse)
    (channel_name : String) : Except String (Option String) :=
  match call with
  | Except.error e => Except.error e
  | Except.ok r =>
    Except.ok (if r.status_code = 200 ∧ r.ok then findChannel channel_name r.channels else none)

/-- Helper `get_slack_messages`: on a 200/ok response return the messages,
on any other response return the empty list; an exception from the HTTP
call propagates. -/
def get_slack_messages (call : Except String HistoryResponse) :
    Except String (List SlackMessage) :=
  match call with
  | Except.error e => Except.error e
  | Except.ok r =>
    Except.ok (if r.status_code = 200 ∧ r.ok then r.messages else [])

/-- The Slack side of the environment: the `conversations.list` call's
outcome and, per channel id, the `conversations.history` call's outcome
(`Except.error` models a raised `requests` exception). -/
structure SlackEnv where
  channelsCall : Except String ChannelsResponse
  historyCall : String → Except String HistoryResponse

/-- Model of Python truthiness for an optional string: `None` and `""` are
falsy. -/
def strFalsy (v : Option String) : Bool :=
  match v with
  | none => true
  | some s => s = ""

/-- Model of Python truthiness for an optional integer: `None` and `0` are
falsy. -/
def intFalsy (v : Option Int) : Bool :=
  match v with
  | none => true
  | some n => n = 0

/-- The approval workflow's graph state (`State` TypedDict of
re_agent_v2.py); `channel` is the only required key. -/
structure State where
  channel : String
  slack_messages : Option (List SlackMessage) := none
  albert_message : Option String := none
  llm_approval : Option String := none
  pipeline_id : Option Int := none
  build_id : Option Int := none
  build_status : Option String := none
  error : Option String := none

/-- A partial update produced by an approval-workflow node. -/
structure StateUpdate where
  slack_messages : Option (List SlackMessage) := none
  albert_message : Option String := none
  llm_approval : Option String := none
  pipeline_id : Option Int := none
  build_id : Option Int := none
  build_status : Option String := none
  error : Option String := none

/-- Node `consult_slack_messages`: resolve the channel id, then fetch the
messages; the body's exceptions are caught and encoded in `error`. -/
def consult_slack_messages (env : SlackEnv) (state : State) : StateUpdate :=
  let body : Except String StateUpdate := do
    let cid ← get_slack_channel_id env.channelsCall state.channel
    if strFalsy cid then
      Except.ok { error := some ("Channel '" ++ state.channel ++ "' not found or not accessible") }
    else do
      let messages ← get_slack_messages (env.historyCall (cid.getD ""))
      Except.ok { slack_messages := some messages }
  match body with
  | Except.ok u => u
  | Except.error e => { error := some ("Error fetching Slack messages: " ++ e) }

/-- The outcome of one `users.info` call inside `check_albert_message`:
either a raised exception (swallowed by the bare `except: pass`) or a
response with its status code, `ok` flag and the two name fields (absent
keys already defaulted to `""`). -/
inductive UserLookup where
  | exn
  | resp (status_code : Nat) (ok : Bool) (real_name : String) (display_name : String)

/-- The search loop of `check_albert_message`: the text of the first
message whose author's `users.info` lookup succeeds with 200/ok and whose
real or display name contains `"Albert H."`; every failed lookup is
skipped. -/
def findAlbert (lookup : String → UserLookup) : List SlackMessage → Option String
  | [] => none
  | m :: rest =>
    match lookup m.user with
    | UserLookup.exn => findAlbert lookup rest
    | UserLookup.resp sc ok rn dn =>
      if sc = 200 ∧ ok ∧ (occursIn "Albert H." rn ∨ occursIn "Albert H." dn) then
        some m.text
      else findAlbert lookup rest

/-- The environment of `check_albert_message`: the per-user `users.info`
outcome and the LLM call's outcome (`Except.error` models a raised
exception). -/
structure AlbertEnv where
  userCall : String → UserLookup
  llmCall : Except String String

/-- Node `check_albert_message`: find Albert's message (a lookup failure
silently skips the message), then classify the LLM reply — `"Approved"`
exactly when the stripped reply contains `"Approved"` as a substring; an
LLM exception is caught and encoded as a rejection with an `error`
field. -/
def check_albert_message (env : AlbertEnv) (state : State) : StateUpdate :=
  let messages := state.slack_messages.getD []
  let albert_message := (findAlbert env.userCall messages).getD ""
  if albert_message = "" then
    { albert_message := some ""
      llm_approval := some "Rejected"
      error := some "No message from Albert H. found in channel" }
  else
    match env.llmCall with
    | Except.ok content =>
      let approval := pyStrip content
      let approval := if occursIn "Approved" approval then "Approved" else "Rejected"
      { albert_message := some albert_message, llm_approval := some approval }
    | Except.error e =>
      { albert_message := some albert_message
        llm_approval := some "Rejected"
        error := some ("Error evaluating message with LLM: " ++ e) }

/-- Gate `validate_approval`: `state.get("llm_approval", "")` compared with
`"Approved"`. -/
def validate_approval (state : State) : String :=
  if state.llm_approval.getD "" = "Approved" then "Approved" else "Rejected"

/-- The JSON body of a successful pipeline-trigger response: the `id`
field, when present, and the `_links.self.href` string (absent keys
defaulted, `href` defaulted to `""` by the source's `get` chain). -/
structure TriggerResp where
  id : Option Int := none
  href : String := ""

/-- Helper `trigger_azure_pipeline`: `None` without a token, on a non-200
response or on a raised exception; the parsed body on a 200 response. -/
def trigger_azure_pipeline (hasToken : Bool)
    (call : Except String (Nat × TriggerResp)) : Option TriggerResp :=
  if !hasToken then none
  else
    match call with
    | Except.error _ => none
    | Except.ok (status, body) => if status = 200 then some body else none

/-- The `build_id` local of `trigger_pipeline`: a JSON integer or a path
segment extracted from the `href`. -/
inductive BId where
  | num (n : Int)
  | str (s : String)

/-- Python truthiness of the `build_id` local (`None`, `0` and `""` are
falsy). -/
def bidFalsy (v : Option BId) : Bool :=
  match v with
  | none => true
  | some (BId.num n) => n = 0
  | some (BId.str s) => s = ""

/-- The href scan of `trigger_pipeline`: the segment after the first
`"runs"` segment that has one. -/
def findRunsId : List String → Option String
  | [] => none
  | p :: rest =>
    if p = "runs" ∧ rest ≠ [] then rest.head?
    else findRunsId rest

/-- The Azure DevOps side of the environment: whether a PAT is configured,
the `AZURE_DEVOPS_PIPELINE_ID` environment value, the trigger call's
outcome and, per attempt, the status call's outcome (`none` models
`get_pipeline_status` returning `None`, which itself swallows non-200
responses and exceptions). -/
structure AzureEnv where
  hasToken : Bool
  pipelineIdConfig : Option String
  triggerCall : Except String (Nat × TriggerResp)

/-- Node `trigger_pipeline`: parse the configured pipeline id, trigger the
pipeline, extract the run id from the response body or its `href`;
every failure path is encoded in the returned update. -/
def trigger_pipeline (env : AzureEnv) (_state : State) : StateUpdate :=
  if strFalsy env.pipelineIdConfig then
    { error := some "Azure DevOps pipeline ID not configured" }
  else
    match pyInt (env.pipelineIdConfig.getD "") with
    | none =>
      { error := some ("Invalid pipeline ID format: invalid literal for int with base 10: "
          ++ env.pipelineIdConfig.getD "") }
    | some pipeline_id =>
      match trigger_azure_pipeline env.hasToken env.triggerCall with
      | none => { error := some "Failed to trigger Azure DevOps pipeline - check logs for details" }
      | some result =>
        let bid0 : Option BId := result.id.map BId.num
        let bid : Option BId :=
          if bidFalsy bid0 then
            if result.href = "" then bid0
            else
              match findRunsId (pySplit result.href '/') with
              | some p => some (BId.str p)
              | none => bid0
          else bid0
        if bidFalsy bid then
          { error := some "Failed to extract build ID from pipeline trigger response"
            pipeline_id := some pipeline_id }
        else
          match bid with
          | some (BId.num n) =>
            { pipeline_id := some pipeline_id, build_id := some n
              build_status := some "InProgress" }
          | some (BId.str s) =>
            match pyInt s with
            | some n =>
              { pipeline_id := some pipeline_id, build_id := some n
                build_status := some "InProgress" }
            | none =>
              { error := some ("Invalid pipeline ID format: invalid literal for int with base 10: "
                  ++ s) }
          | none =>
            { error := some "Failed to extract build ID from pipeline trigger response"
              pipeline_id := some pipeline_id }

/-- The body of a pipeline-status response as consumed by the polling
loop: `run_info.get("state", "")` and `run_info.get("result")`. -/
structure RunInfo where
  state : String := ""
  result : Option String := none

/-- The source's `result_value` local: the lowered result when truthy,
else `None`. -/
def resultValue (ri : RunInfo) : Option String :=
  match ri.result with
  | none => none
  | some r => if r = "" then none else some (pyLower r)

/-- The source's `status_msg` local on the completed branch. -/
def statusMsg (ri : RunInfo) : String :=
  match resultValue ri with
  | some rv => "Completed - " ++ pyCapitalize rv
  | none => "Completed"

/-- Whether a status-check outcome is terminal for the loop: a received
response whose lowered `state` is `"completed"`. -/
def isTerminal (o : Option RunInfo) : Bool :=
  match o with
  | some ri => pyLower ri.state = "completed"
  | none => false

/-- The outcome of the polling loop: the partial update it returns, the
number of status-check invocations and the number of in-loop sleeps. -/
structure PollCount where
  update : StateUpdate
  invocations : Nat
  sleeps : Nat

/-- The partial update returned when the attempt budget is exhausted. -/
def timeoutUpdate : StateUpdate :=
  { build_status := some "Timeout - Status check exceeded maximum attempts"
    error := some "Pipeline status check timed out" }

/-- The `while attempt < max_attempts` loop of `check_pipeline_status`:
each iteration invokes the status check once; a completed response
returns immediately with `build_status` set and no further sleep; any
other outcome (still running, or `get_pipeline_status` returning `None`
after an HTTP failure) sleeps, increments the attempt counter and
retries.  `fuel` is the number of remaining attempts
(`max_attempts - attempt`). -/
def pollLoop (check : Nat → Option RunInfo) : Nat → Nat → PollCount
  | _attempt, 0 => { update := timeoutUpdate, invocations := 0, sleeps := 0 }
  | attempt, fuel + 1 =>
    match check attempt with
    | some ri =>
      if pyLower ri.state = "completed" then
        { update := { build_status := some (statusMsg ri) }, invocations := 1, sleeps := 0 }
      else
        let rest := pollLoop check (attempt + 1) fuel
        { update := rest.update, invocations := rest.invocations + 1, sleeps := rest.sleeps + 1 }
    | none =>
      let rest := pollLoop check (attempt + 1) fuel
      { update := rest.update, invocations := rest.invocations + 1, sleeps := rest.sleeps + 1 }

/-- The source's hard-coded maximum number of polling attempts. -/
def max_attempts : Nat := 100

/-- Node `check_pipeline_status`: reject a run without pipeline and build
ids, then poll with the hard-coded budget of 100 attempts.  The single
fixed 3-second sleep performed before the loop is not a loop sleep and is
not counted in `sleeps`. -/
def check_pipeline_status (check : Nat → Option RunInfo) (state : State) : PollCount :=
  if intFalsy state.pipeline_id ∨ intFalsy state.build_id then
    { update := { error := some "No pipeline ID or build ID available" }
      invocations := 0, sleeps := 0 }
  else
    pollLoop check 0 max_attempts

/-- The whole environment of one approval-workflow run. -/
structure Env where
  slack : SlackEnv
  albert : AlbertEnv
  azure : AzureEnv
  statusCheck : Nat → Option RunInfo

/-- Modelled from the spec: merge an approval-workflow partial update into
the state, field by field, update wins (the LangGraph merge). -/
def applyUpdate (s : State) (u : StateUpdate) : State :=
  { channel := s.channel
    slack_messages :=
      match u.slack_messages with
      | some v => some v
      | none => s.slack_messages
    albert_message := ovw u.albert_message s.albert_message
    llm_approval := ovw u.llm_approval s.llm_approval
    pipeline_id :=
      match u.pipeline_id with
      | some v => some v
      | none => s.pipeline_id
    build_id :=
      match u.build_id with
      | some v => some v
      | none => s.build_id
    build_status := ovw u.build_status s.build_status
    error := ovw u.error s.error }

/-- The state after the first node, `consult_slack_messages`. -/
def afterConsult (env : Env) (init : State) : State :=
  applyUpdate init (consult_slack_messages env.slack init)

/-- The state after the second node, `check_albert_message`: the input of
the gate `validate_approval`. -/
def afterCheck (env : Env) (init : State) : State :=
  applyUpdate (afterConsult env init) (check_albert_message env.albert (afterConsult env init))

/-- Modelled from the spec: one run of the approval workflow's graph as
built in re_agent_v2.py (START → consult_slack_messages →
check_albert_message → gate validate_approval with mapping
Approved ↦ trigger_pipeline, Rejected ↦ END; trigger_pipeline →
check_pipeline_status → END), returning the final state and the list of
executed node names. -/
def runV2 (env : Env) (init : State) : State × List String :=
  let s2 := afterCheck env init
  if validate_approval s2 = "Approved" then
    let s3 := applyUpdate s2 (trigger_pipeline env.azure s2)
    let s4 := applyUpdate s3 (check_pipeline_status env.statusCheck s3).update
    (s4, ["consult_slack_messages", "check_albert_message", "trigger_pipeline",
          "check_pipeline_status"])
  else
    (s2, ["consult_slack_messages", "check_albert_message"])

/-- A `users.info` lookup that does not yield a usable 200/ok response: a
raised exception, a non-200 status, or `ok: false`. -/
def lookupFailed (u : UserLookup) : Bool :=
  match u with
  | UserLookup.exn => true
  | UserLookup.resp sc ok _ _ => if sc = 200 ∧ ok then false else true

/-- A concrete environment whose channel exists but carries no qualifying
message: every user lookup raises, so no message is attributed to Albert. -/
def envC1 : Env :=
  { slack :=
      { channelsCall :=
          Except.ok
            { status_code := 200
              ok := true
              channels := [{ name := some "general", id := some "C1" }] }
        historyCall := fun _ =>
          Except.ok
            { status_code := 200
              ok := true
              messages := [{ user := "U1", text := "release?" }] } }
    albert := { userCall := fun _ => UserLookup.exn, llmCall := Except.ok "Approved" }
    azure := { hasToken := false, pipelineIdConfig := none, triggerCall := Except.error "" }
    statusCheck := fun _ => none }

/-- A concrete environment with a qualifying message from Albert whose LLM
reply is the string "Not Approved". -/
def envC9 : Env :=
  { slack :=
      { channelsCall :=
          Except.ok
            { status_code := 200
              ok := true
              channels := [{ name := some "general", id := some "C1" }] }
        historyCall := fun _ =>
          Except.ok
            { status_code := 200
              ok := true
              messages := [{ user := "U1", text := "deploy" }] } }
    albert :=
      { userCall := fun _ => UserLookup.resp 200 true "Albert H." ""
        llmCall := Except.ok "Not Approved" }
    azure := { hasToken := false, pipelineIdConfig := none, triggerCall := Except.error "" }
    statusCheck := fun _ => none }

/-! ## Shared lemmas about the StateRecord merge -/

theorem getField_setField_same (s : StateRecord) (k : String) (v : Value) :
    getField (setField s k v) k = some v := by
  induction s with
  | nil => simp [setField, getField]
  | cons kv rest ih =>
    obtain ⟨k0, v0⟩ := kv
    by_cases h : k0 = k
    · subst h; simp [setField, getField]
    · simp [setField, getField, h, ih]

theorem getField_setField_other (s : StateRecord) (k f : String) (v : Value)
    (h : f ≠ k) : getField (setField s k v) f = getField s f := by
  induction s with
  | nil => simp [setField, getField, Ne.symm h]
  | cons kv rest ih =>
    obtain ⟨k0, v0⟩ := kv
    by_cases h0 : k0 = k
    · subst h0
      simp [setField, getField, Ne.symm h]
    · simp only [setField, if_neg h0, getField]
      by_cases h1 : k0 = f <;> simp [h1, ih]

theorem getField_mergeUpdate (u : PartialRecord) (s : StateRecord) (f : String) :
    getField (mergeUpdate s u) f =
      match updWrites u f with
      | some v => some v
      | none => getField s f := by
  induction u generalizing s with
  | nil => simp [mergeUpdate, updWrites]
  | cons kv rest ih =>
    have hstep : mergeUpdate s (kv :: rest) = mergeUpdate (setField s kv.1 kv.2) rest := rfl
    rw [hstep, ih]
    cases hw : updWrites rest f with
    | some v => simp [updWrites, hw]
    | none =>
      by_cases h : kv.1 = f
      · subst h; simp [updWrites, hw, getField_setField_same]
      · simp [updWrites, hw, h, getField_setField_other _ _ _ _ (fun hk => h hk.symm)]

theorem mergeUpdate_no_removal (s : StateRecord) (u : PartialRecord) (k : String)
    (v : Value) (h : getField s k = some v) :
    ∃ w, getField (mergeUpdate s u) k = some w := by
  rw [getField_mergeUpdate]
  cases hw : updWrites u k with
  | some w => exact ⟨w, rfl⟩
  | none => exact ⟨v, h⟩

/-- C5: when nodes A then B both write field `f`, the merged StateRecord holds
B's value for `f` whatever A wrote (last-writer-wins), and merging a partial
update never removes a field that is present. -/
theorem merge_last_writer_wins_and_no_removal
    (s : StateRecord) (a b : PartialRecord) (f : String) (vb : Value)
    (hb : updWrites b f = some vb) :
    getField (mergeUpdate (mergeUpdate s a) b) f = some vb ∧
    ∀ (s0 : StateRecord) (u : PartialRecord) (k : String) (v : Value),
      getField s0 k = some v → ∃ w, getField (mergeUpdate s0 u) k = some w := by
  constructor
  · rw [getField_mergeUpdate, hb]
  · exact fun s0 u k v h => mergeUpdate_no_removal s0 u k v h

/-- Witness for C5: node A writes `error := "A"`, node B then writes
`error := "B"`; the merged record holds `"B"`. -/
theorem merge_last_writer_wins_witness :
    getField (mergeUpdate (mergeUpdate [("channel", Value.str "general")]
        [("error", Value.str "A")]) [("error", Value.str "B")]) "error" =
      some (Value.str "B") :=
  (merge_last_writer_wins_and_no_removal [("channel", Value.str "general")]
    [("error", Value.str "A")] [("error", Value.str "B")] "error" (Value.str "B") rfl).1

/-- C4 counterexample: `generate_joke`, a node work function registered in the
joke workflow graph, raises `KeyError` (rather than returning an update) on the
input StateRecord that lacks the `topic` field, so not every registered node
work function is raise-free on every input StateRecord. -/
theorem generate_joke_raises_on_missing_topic :
    generate_joke ⟨fun s => s, fun s => s, fun s => s, fun s => s⟩ {} =
      Except.error (PyExn.keyError "topic") := rfl

/-- C4 (amended): every node work function of the v2 approval workflow returns a
partial StateRecord update on every schema-conforming state and never raises —
exceptions from the Slack calls, the LLM call and the Azure DevOps calls are
caught and encoded in the returned update (an `error` field, a `"Rejected"`
approval); the joke workflow's nodes do not satisfy this (see the
counterexample). -/
theorem v2_nodes_encode_failures_as_data
    (slack : SlackEnv) (albert : AlbertEnv) (azure : AzureEnv)
    (check : Nat → Option RunInfo) (s : State) :
    (∀ e, slack.channelsCall = Except.error e →
      (consult_slack_messages slack s).error =
        some ("Error fetching Slack messages: " ++ e)) ∧
    (∀ e t, albert.llmCall = Except.error e →
      findAlbert albert.userCall (s.slack_messages.getD []) = some t → t ≠ "" →
      check_albert_message albert s =
        { albert_message := some t, llm_approval := some "Rejected",
          error := some ("Error evaluating message with LLM: " ++ e) }) ∧
    (∀ e, azure.triggerCall = Except.error e →
      trigger_azure_pipeline azure.hasToken azure.triggerCall = none) ∧
    (∀ e pid, azure.triggerCall = Except.error e →
      strFalsy azure.pipelineIdConfig = false →
      pyInt (azure.pipelineIdConfig.getD "") = some pid →
      trigger_pipeline azure s =
        { error := some "Failed to trigger Azure DevOps pipeline - check logs for details" }) ∧
    (intFalsy s.pipeline_id = true →
      (check_pipeline_status check s).update.error =
        some "No pipeline ID or build ID available") := by
  refine ⟨?_, ?_, ?_, ?_, ?_⟩
  · intro e he
    simp [consult_slack_messages, get_slack_channel_id, he, Except.bind, Bind.bind]
  · intro e t hllm hfind ht
    simp [check_albert_message, hfind, ht, hllm]
  · intro e he
    cases hT : azure.hasToken <;> simp [trigger_azure_pipeline, he, hT]
  · intro e pid he hcfg hpi
    cases hT : azure.hasToken <;>
      simp [trigger_pipeline, hcfg, hpi, trigger_azure_pipeline, he, hT]
  · intro hp
    simp [check_pipeline_status, hp]

/-- Witness for C4 (amended): concrete failing environments for each v2 node,
with the failure encoded in the returned update. -/
theorem v2_nodes_encode_failures_witness :
    (consult_slack_messages ⟨Except.error "boom", fun _ => Except.ok { status_code := 200 }⟩
        { channel := "general" }).error = some "Error fetching Slack messages: boom" ∧
    check_albert_message
        ⟨fun _ => UserLookup.resp 200 true "Albert H." "", Except.error "llm down"⟩
        { channel := "general", slack_messages := some [{ user := "U1", text := "ship it" }] } =
      { albert_message := some "ship it", llm_approval := some "Rejected",
        error := some "Error evaluating message with LLM: llm down" } ∧
    trigger_pipeline ⟨true, some "7", Except.error "net"⟩ { channel := "general" } =
      { error := some "Failed to trigger Azure DevOps pipeline - check logs for details" } ∧
    (check_pipeline_status (fun _ => none) { channel := "general" }).update.error =
      some "No pipeline ID or build ID available" := by
  refine ⟨?_, ?_, ?_, ?_⟩
  · exact (v2_nodes_encode_failures_as_data
      ⟨Except.error "boom", fun _ => Except.ok { status_code := 200 }⟩
      ⟨fun _ => UserLookup.exn, Except.ok ""⟩ ⟨false, none, Except.error ""⟩
      (fun _ => none) { channel := "general" }).1 "boom" rfl
  · exact (v2_nodes_encode_failures_as_data
      ⟨Except.error "", fun _ => Except.ok { status_code := 200 }⟩
      ⟨fun _ => UserLookup.resp 200 true "Albert H." "", Except.error "llm down"⟩
      ⟨false, none, Except.error ""⟩ (fun _ => none)
      { channel := "general", slack_messages := some [{ user := "U1", text := "ship it" }] }
      ).2.1 "llm down" "ship it" rfl (by decide) (by decide)
  · exact (v2_nodes_encode_failures_as_data
      ⟨Except.error "", fun _ => Except.ok { status_code := 200 }⟩
      ⟨fun _ => UserLookup.exn, Except.ok ""⟩ ⟨true, some "7", Except.error "net"⟩
      (fun _ => none) { channel := "general" }).2.2.2.1 "net" 7 rfl (by decide) (by decide)
  · exact (v2_nodes_encode_failures_as_data
      ⟨Except.error "", fun _ => Except.ok { status_code := 200 }⟩
      ⟨fun _ => UserLookup.exn, Except.ok ""⟩ ⟨false, none, Except.error ""⟩
      (fun _ => none) { channel := "general" }).2.2.2.2 rfl

/-- C6: the joke-workflow gate `check_punchline` returns `"Pass"` exactly when
the generated joke contains `?` or `!`; on pass the run goes generate_joke →
ask_for_applause, skipping improve_joke and polish_joke, and the final state
lacks `improved_joke`; on fail the run visits improve_joke, polish_joke, then
ask_for_applause. -/
theorem check_punchline_gate_routing (llm : JokeLLM) (t : String) :
    (check_punchline { topic := some t, joke := some (llm.gen t) } = Except.ok "Pass" ↔
      (charIn '?' (llm.gen t) || charIn '!' (llm.gen t)) = true) ∧
    ((charIn '?' (llm.gen t) || charIn '!' (llm.gen t)) = true →
      runJoke llm { topic := some t } =
        Except.ok ({ topic := some t, joke := some (llm.gen t),
                     improved_joke := none,
                     ask_for_applause := some (llm.applause (llm.gen t)),
                     final_joke := none },
                   ["generate_joke", "ask_for_applause"])) ∧
    ((charIn '?' (llm.gen t) || charIn '!' (llm.gen t)) = false →
      runJoke llm { topic := some t } =
        Except.ok ({ topic := some t, joke := some (llm.gen t),
                     improved_joke := some (llm.improve (llm.gen t)),
                     ask_for_applause := some (llm.applause (llm.gen t)),
                     final_joke := some (llm.polish (llm.improve (llm.gen t))) },
                   ["generate_joke", "improve_joke", "polish_joke", "ask_for_applause"])) := by
  refine ⟨?_, ?_, ?_⟩
  · cases h : (charIn '?' (llm.gen t) || charIn '!' (llm.gen t)) <;>
      simp [check_punchline, getItem, h, Except.bind, Bind.bind]
  · intro h
    simp [runJoke, generate_joke, getItem, mergeJoke, ovw, check_punchline,
      ask_for_applause, improve_joke, polish_joke, h, Except.bind, Bind.bind]
  · intro h
    simp [runJoke, generate_joke, getItem, mergeJoke, ovw, check_punchline,
      ask_for_applause, improve_joke, polish_joke, h, Except.bind, Bind.bind]

/-- Witness for C6: the spec's pass-path joke (it contains `!`) routes directly
to ask_for_applause and leaves `improved_joke` unset. -/
theorem check_punchline_gate_routing_witness :
    runJoke
        ⟨fun _ => "Why did the cat sit on the keyboard? To keep an eye on the mouse!",
         fun s => s, fun _ => "applaud!", fun s => s⟩
        { topic := some "cats" } =
      Except.ok ({ topic := some "cats",
                   joke := some "Why did the cat sit on the keyboard? To keep an eye on the mouse!",
                   improved_joke := none,
                   ask_for_applause := some "applaud!",
                   final_joke := none },
                 ["generate_joke", "ask_for_applause"]) :=
  (check_punchline_gate_routing
    ⟨fun _ => "Why did the cat sit on the keyboard? To keep an eye on the mouse!",
     fun s => s, fun _ => "applaud!", fun s => s⟩ "cats").2.1 (by decide)

/-! ## Shared lemmas about the polling loop -/

theorem pollLoop_all_nonterminal (check : Nat → Option RunInfo)
    (h : ∀ n, isTerminal (check n) = false) :
    ∀ (fuel attempt : Nat), pollLoop check attempt fuel =
      { update := timeoutUpdate, invocations := fuel, sleeps := fuel } := by
  intro fuel
  induction fuel with
  | zero => intro attempt; rfl
  | succ f ih =>
    intro attempt
    have hn := h attempt
    cases hc : check attempt with
    | none => simp [pollLoop, hc, ih]
    | some ri =>
      have hne : ¬ pyLower ri.state = "completed" := by
        rw [hc] at hn
        simpa [isTerminal] using hn
      simp [pollLoop, hc, hne, ih]

theorem pollLoop_completes (check : Nat → Option RunInfo) (ri : RunInfo)
    (hri : pyLower ri.state = "completed") :
    ∀ (m a fuel : Nat), m + 1 ≤ fuel →
      (∀ i, a ≤ i → i < a + m → isTerminal (check i) = false) →
      check (a + m) = some ri →
      pollLoop check a fuel =
        { update := { build_status := some (statusMsg ri) },
          invocations := m + 1, sleeps := m } := by
  intro m
  induction m with
  | zero =>
    intro a fuel hf _hpend hterm
    obtain ⟨f, rfl⟩ : ∃ f, fuel = f + 1 := ⟨fuel - 1, by omega⟩
    have hca : check a = some ri := by simpa using hterm
    simp [pollLoop, hca, hri]
  | succ m ih =>
    intro a fuel hf hpend hterm
    obtain ⟨f, rfl⟩ : ∃ f, fuel = f + 1 := ⟨fuel - 1, by omega⟩
    have hrec : pollLoop check (a + 1) f =
        { update := { build_status := some (statusMsg ri) },
          invocations := m + 1, sleeps := m } :=
      ih (a + 1) f (by omega)
        (fun i h1 h2 => hpend i (by omega) (by omega))
        (by rw [show a + 1 + m = a + (m + 1) from by omega]; exact hterm)
    have hp0 := hpend a (Nat.le_refl a) (by omega)
    cases hc : check a with
    | none => simp [pollLoop, hc, hrec]
    | some ri0 =>
      have hne : ¬ pyLower ri0.state = "completed" := by
        rw [hc] at hp0
        simpa [isTerminal] using hp0
      simp [pollLoop, hc, hne, hrec]

/-- C2: when the status check always reports a non-terminal outcome, the
polling loop invokes it exactly once per attempt of the budget (`fuel`
invocations for any budget), then returns the timeout update, whose partial
state update sets both the timeout `build_status` field and the `error`
field; for the source's hard-coded budget, `check_pipeline_status` performs
exactly 100 invocations and does not loop further. -/
theorem poll_timeout_after_max_attempts (check : Nat → Option RunInfo)
    (h : ∀ n, isTerminal (check n) = false) :
    (∀ fuel attempt, pollLoop check attempt fuel =
      { update := timeoutUpdate, invocations := fuel, sleeps := fuel }) ∧
    (∀ s : State, intFalsy s.pipeline_id = false → intFalsy s.build_id = false →
      check_pipeline_status check s =
        { update := timeoutUpdate, invocations := 100, sleeps := 100 }) ∧
    timeoutUpdate.build_status = some "Timeout - Status check exceeded maximum attempts" ∧
    timeoutUpdate.error = some "Pipeline status check timed out" := by
  refine ⟨fun fuel attempt => pollLoop_all_nonterminal check h fuel attempt, ?_, rfl, rfl⟩
  intro s hp hb
  simp [check_pipeline_status, hp, hb, max_attempts, pollLoop_all_nonterminal check h]

/-- Witness for C2: an always-Pending status stub is invoked exactly 100 times
and the node returns the timeout update. -/
theorem poll_timeout_witness :
    check_pipeline_status (fun _ => some { state := "inProgress" })
      { channel := "", pipeline_id := some 1, build_id := some 42 } =
      { update := timeoutUpdate, invocations := 100, sleeps := 100 } :=
  (poll_timeout_after_max_attempts (fun _ => some { state := "inProgress" })
    (fun _ => rfl)).2.1
    { channel := "", pipeline_id := some 1, build_id := some 42 } (by decide) (by decide)

/-- C3: if the status check is non-terminal on its first k−1 invocations and
completed on the k-th (1 ≤ k ≤ maxAttempts), `check_pipeline_status` returns
the completed status immediately after exactly k invocations of the check and
exactly k−1 in-loop sleeps — no sleep follows the terminal result. -/
theorem poll_returns_on_terminal_after_k (check : Nat → Option RunInfo)
    (ri : RunInfo) (k : Nat) (s : State)
    (hk : 1 ≤ k) (hkm : k ≤ max_attempts)
    (hpend : ∀ i, i < k - 1 → isTerminal (check i) = false)
    (hterm : check (k - 1) = some ri)
    (hri : pyLower ri.state = "completed")
    (hp : intFalsy s.pipeline_id = false) (hb : intFalsy s.build_id = false) :
    check_pipeline_status check s =
      { update := { build_status := some (statusMsg ri) },
        invocations := k, sleeps := k - 1 } := by
  obtain ⟨m, rfl⟩ : ∃ m, k = m + 1 := ⟨k - 1, by omega⟩
  have hm : m + 1 - 1 = m := by omega
  rw [hm] at hpend hterm ⊢
  have hloop := pollLoop_completes check ri hri m 0 max_attempts (by simpa using hkm)
    (fun i _ h2 => hpend i (by omega)) (by simpa using hterm)
  simp [check_pipeline_status, hp, hb, hloop]

/-- Witness for C3: a status stub that is Pending twice and completed on the
third call returns after exactly 3 invocations and 2 sleeps. -/
theorem poll_returns_witness :
    check_pipeline_status
      (fun n => if n < 2 then some { state := "inProgress" }
                else some { state := "completed", result := some "succeeded" })
      { channel := "", pipeline_id := some 1, build_id := some 42 } =
      { update := { build_status := some "Completed - Succeeded" },
        invocations := 3, sleeps := 2 } :=
  poll_returns_on_terminal_after_k
    (fun n => if n < 2 then some { state := "inProgress" }
              else some { state := "completed", result := some "succeeded" })
    { state := "completed", result := some "succeeded" } 3
    { channel := "", pipeline_id := some 1, build_id := some 42 }
    (by decide) (by decide)
    (fun i hi => by
      have hcases : i = 0 ∨ i = 1 := by omega
      rcases hcases with rfl | rfl <;> decide)
    rfl (by decide) (by decide) (by decide)

/-- C7 counterexample: a status check failing with an I/O fault on every
invocation (`get_pipeline_status` returning None each time) is retried for the
whole hard-coded 100-attempt budget and ends in the timeout update —
`check_pipeline_status` never aborts the poll on an I/O failure and exposes no
configuration to its caller that could make it do so, against the claim that
immediate abort is a caller-exposed configuration choice. -/
theorem io_failure_abort_not_configurable :
    check_pipeline_status (fun _ => none)
      { channel := "", pipeline_id := some 7, build_id := some 99 } =
      { update := timeoutUpdate, invocations := 100, sleeps := 100 } := by
  have h := pollLoop_all_nonterminal (fun _ => none) (fun _ => rfl) 100 0
  simpa [check_pipeline_status, max_attempts] using h

/-- C7 (amended): a transient I/O failure of the status check (None from
`get_pipeline_status`) is treated exactly like a Pending outcome under the
same attempt budget: any two checks that never report a terminal outcome —
whatever mix of I/O failures and pending responses each returns — give the
polling loop identical results, and the budget is always exhausted; the
policy is hard-coded in `check_pipeline_status`, not a caller configuration. -/
theorem io_failures_retried_as_pending (check check' : Nat → Option RunInfo)
    (a fuel : Nat)
    (h : ∀ n, isTerminal (check n) = false)
    (h' : ∀ n, isTerminal (check' n) = false) :
    pollLoop check a fuel = pollLoop check' a fuel ∧
    (pollLoop check a fuel).invocations = fuel := by
  rw [pollLoop_all_nonterminal check h fuel a, pollLoop_all_nonterminal check' h' fuel a]
  exact ⟨rfl, rfl⟩

/-- Witness for C7 (amended): the always-failing check and an always-Pending
check behave identically over the full budget. -/
theorem io_failures_retried_witness :
    pollLoop (fun _ => none) 0 100 =
      pollLoop (fun _ => some { state := "inProgress" }) 0 100 ∧
    (pollLoop (fun _ => none) 0 100).invocations = 100 :=
  io_failures_retried_as_pending (fun _ => none)
    (fun _ => some { state := "inProgress" }) 0 100 (fun _ => rfl) (fun _ => rfl)

/-- C1: when the gate's input state has no `llm_approval` field or an approval
value other than "Approved", the gate `validate_approval` returns "Rejected",
the run routes from check_albert_message directly to END, and the
trigger_pipeline node is never executed (it occurs zero times in the run's
node trace). -/
theorem rejected_gate_routes_to_end (env : Env) (init : State)
    (h : (afterCheck env init).llm_approval ≠ some "Approved") :
    validate_approval (afterCheck env init) = "Rejected" ∧
    (runV2 env init).2 = ["consult_slack_messages", "check_albert_message"] ∧
    (runV2 env init).2.count "trigger_pipeline" = 0 := by
  have hv : validate_approval (afterCheck env init) = "Rejected" := by
    unfold validate_approval
    cases ha : (afterCheck env init).llm_approval with
    | none => simp
    | some v =>
      have hne : v ≠ "Approved" := fun he => h (by rw [ha, he])
      simp [hne]
  have htrace : (runV2 env init).2 = ["consult_slack_messages", "check_albert_message"] := by
    simp [runV2, hv]
  refine ⟨hv, htrace, ?_⟩
  rw [htrace]
  rfl

/-- Witness for C1: in a concrete run whose channel holds one message but every
user lookup raises, no qualifying message is found, the gate rejects, and only
the two Slack nodes execute. -/
theorem rejected_gate_witness :
    validate_approval (afterCheck envC1 { channel := "general" }) = "Rejected" ∧
    (runV2 envC1 { channel := "general" }).2 =
      ["consult_slack_messages", "check_albert_message"] ∧
    (runV2 envC1 { channel := "general" }).2.count "trigger_pipeline" = 0 :=
  rejected_gate_routes_to_end envC1 { channel := "general" } (by decide)

/-- Every message whose author lookup fails is skipped by the search loop. -/
theorem findAlbert_all_failed (lookup : String → UserLookup) :
    ∀ msgs : List SlackMessage,
      (∀ msg ∈ msgs, lookupFailed (lookup msg.user) = true) →
      findAlbert lookup msgs = none := by
  intro msgs
  induction msgs with
  | nil => intro _; rfl
  | cons m rest ih =>
    intro hall
    have hm := hall m (List.mem_cons_self m rest)
    have hrest := ih (fun msg hmem => hall msg (List.mem_cons_of_mem m hmem))
    cases hc : lookup m.user with
    | exn => simpa [findAlbert, hc] using hrest
    | resp sc ok rn dn =>
      have hne : ¬ (sc = 200 ∧ ok = true) := by
        rw [hc] at hm
        by_contra hcon
        simp [lookupFailed, hcon.1, hcon.2] at hm
      simp only [findAlbert, hc]
      rw [if_neg (fun hcon => hne ⟨hcon.1, hcon.2.1⟩)]
      exact hrest

/-- C8: a failed per-message user lookup (exception, non-200 status or a
non-ok payload) silently skips that message; when every lookup fails,
check_albert_message returns exactly the not-found update — `llm_approval`
"Rejected" with the no-message-found error — which is identical to the update
returned over an empty message list, so nothing in the update records that an
I/O failure rather than genuine absence occurred. -/
theorem lookup_failures_silently_skipped
    (lookup : String → UserLookup) (m : SlackMessage) (rest : List SlackMessage)
    (albert : AlbertEnv) (s : State)
    (hm : lookupFailed (lookup m.user) = true)
    (hall : ∀ msg ∈ s.slack_messages.getD [], lookupFailed (albert.userCall msg.user) = true) :
    findAlbert lookup (m :: rest) = findAlbert lookup rest ∧
    check_albert_message albert s =
      { albert_message := some "", llm_approval := some "Rejected",
        error := some "No message from Albert H. found in channel" } ∧
    check_albert_message albert s =
      check_albert_message albert { s with slack_messages := some [] } := by
  have hskip : findAlbert lookup (m :: rest) = findAlbert lookup rest := by
    cases hc : lookup m.user with
    | exn => simp [findAlbert, hc]
    | resp sc ok rn dn =>
      have hne : ¬ (sc = 200 ∧ ok = true) := by
        rw [hc] at hm
        by_contra hcon
        simp [lookupFailed, hcon.1, hcon.2] at hm
      simp only [findAlbert, hc]
      rw [if_neg (fun hcon => hne ⟨hcon.1, hcon.2.1⟩)]
  have hnone : findAlbert albert.userCall (s.slack_messages.getD []) = none :=
    findAlbert_all_failed albert.userCall _ hall
  have hupd : check_albert_message albert s =
      { albert_message := some "", llm_approval := some "Rejected",
        error := some "No message from Albert H. found in channel" } := by
    simp [check_albert_message, hnone]
  refine ⟨hskip, hupd, ?_⟩
  rw [hupd]
  rfl

/-- Witness for C8: a concrete channel with one message whose author lookup
returns a non-ok response yields exactly the not-found rejection. -/
theorem lookup_failures_witness :
    findAlbert (fun _ => UserLookup.resp 500 false "" "")
        [{ user := "U1", text := "hello" }] = none ∧
    check_albert_message
        ⟨fun _ => UserLookup.resp 500 false "" "", Except.ok "Approved"⟩
        { channel := "general",
          slack_messages := some [{ user := "U1", text := "hello" }] } =
      { albert_message := some "", llm_approval := some "Rejected",
        error := some "No message from Albert H. found in channel" } := by
  have h := lookup_failures_silently_skipped (fun _ => UserLookup.resp 500 false "" "")
    { user := "U1", text := "hello" } []
    ⟨fun _ => UserLookup.resp 500 false "" "", Except.ok "Approved"⟩
    { channel := "general", slack_messages := some [{ user := "U1", text := "hello" }] }
    rfl (fun msg _ => rfl)
  exact ⟨h.1, h.2.1⟩

/-- C9: with a qualifying message found and an LLM reply received,
check_albert_message sets `llm_approval` to "Approved" exactly when the string
"Approved" occurs as a substring of the stripped reply (so a reply such as
"Not Approved" is classified as approved); every other reply yields
"Rejected"; and an approved gate input makes the run proceed to
trigger_pipeline. -/
theorem approved_substring_classification
    (albert : AlbertEnv) (s : State) (t reply : String) (env : Env) (init : State)
    (hfind : findAlbert albert.userCall (s.slack_messages.getD []) = some t)
    (ht : t ≠ "")
    (hllm : albert.llmCall = Except.ok reply) :
    ((check_albert_message albert s).llm_approval = some "Approved" ↔
      occursIn "Approved" (pyStrip reply) = true) ∧
    (occursIn "Approved" (pyStrip reply) = false →
      (check_albert_message albert s).llm_approval = some "Rejected") ∧
    (validate_approval (afterCheck env init) = "Approved" →
      (runV2 env init).2 = ["consult_slack_messages", "check_albert_message",
        "trigger_pipeline", "check_pipeline_status"]) := by
  have hupd : check_albert_message albert s =
      { albert_message := some t,
        llm_approval :=
          some (if occursIn "Approved" (pyStrip reply) then "Approved" else "Rejected") } := by
    simp [check_albert_message, hfind, ht, hllm]
  refine ⟨?_, ?_, ?_⟩
  · rw [hupd]
    cases h : occursIn "Approved" (pyStrip reply) <;> simp [h]
  · intro h
    rw [hupd]
    simp [h]
  · intro hv
    simp [runV2, hv]

/-- Witness for C9: the reply "Not Approved" contains "Approved" as a
substring, is classified as approved, and the concrete run proceeds to
trigger_pipeline. -/
theorem approved_substring_witness :
    (check_albert_message envC9.albert
        { channel := "general",
          slack_messages := some [{ user := "U1", text := "deploy" }] }).llm_approval =
      some "Approved" ∧
    (runV2 envC9 { channel := "general" }).2 =
      ["consult_slack_messages", "check_albert_message", "trigger_pipeline",
       "check_pipeline_status"] := by
  have h := approved_substring_classification envC9.albert
    { channel := "general", slack_messages := some [{ user := "U1", text := "deploy" }] }
    "deploy" "Not Approved" envC9 { channel := "general" }
    (by decide) (by decide) rfl
  exact ⟨h.1.mpr (by decide), h.2.2 (by decide)⟩

/-- C10: get_slack_messages returns the empty list on every non-200 response
and on every response whose ok flag is false, with no distinguished failure
value; when the channel lookup succeeds but message retrieval fails,
consult_slack_messages returns exactly `(slack_messages := [])` with no error
field — the same update as over a genuinely empty channel — and a state whose
message list is empty ends with `llm_approval` "Rejected" downstream. -/
theorem slack_failures_indistinguishable_from_empty
    (r : HistoryResponse) (slack : SlackEnv) (s : State) (cid : String)
    (albert : AlbertEnv) (s2 : State)
    (hr : r.status_code ≠ 200 ∨ r.ok = false)
    (hcid : get_slack_channel_id slack.channelsCall s.channel = Except.ok (some cid))
    (hne : cid ≠ "")
    (hhist : slack.historyCall cid = Except.ok r)
    (hs2 : s2.slack_messages = some []) :
    get_slack_messages (Except.ok r) = Except.ok [] ∧
    consult_slack_messages slack s = { slack_messages := some [] } ∧
    consult_slack_messages slack s =
      consult_slack_messages
        { slack with historyCall := fun _ =>
            Except.ok { status_code := 200, ok := true, messages := [] } } s ∧
    (check_albert_message albert s2).llm_approval = some "Rejected" ∧
    (check_albert_message albert s2).error =
      some "No message from Albert H. found in channel" := by
  have hmsg : get_slack_messages (Except.ok r) = Except.ok [] := by
    rcases hr with h | h
    · simp [get_slack_messages, h]
    · simp [get_slack_messages, h]
  have hcons : consult_slack_messages slack s = { slack_messages := some [] } := by
    simp [consult_slack_messages, hcid, hne, hhist, hmsg, strFalsy,
      Except.bind, Bind.bind]
  have hcons2 : consult_slack_messages
      { slack with historyCall := fun _ =>
          Except.ok { status_code := 200, ok := true, messages := [] } } s =
      { slack_messages := some [] } := by
    simp [consult_slack_messages, hcid, hne, strFalsy, get_slack_messages,
      Except.bind, Bind.bind]
  have halbert : check_albert_message albert s2 =
      { albert_message := some "", llm_approval := some "Rejected",
        error := some "No message from Albert H. found in channel" } := by
    simp [check_albert_message, hs2, findAlbert]
  refine ⟨hmsg, hcons, ?_, ?_, ?_⟩
  · rw [hcons, hcons2]
  · rw [halbert]
  · rw [halbert]

/-- Witness for C10: a concrete run whose history call returns HTTP 500 gets
`(slack_messages := [])`, indistinguishable from an empty channel, and the
downstream node rejects. -/
theorem slack_failures_witness :
    consult_slack_messages
        ⟨Except.ok { status_code := 200, ok := true, channels := [{ name := some "general", id := some "C1" }] },
         fun _ => Except.ok { status_code := 500, ok := true, messages := [{ user := "U1", text := "x" }] }⟩
        { channel := "general" } = { slack_messages := some [] } ∧
    (check_albert_message ⟨fun _ => UserLookup.exn, Except.ok ""⟩
        { channel := "general", slack_messages := some [] }).llm_approval =
      some "Rejected" := by
  have h := slack_failures_indistinguishable_from_empty
    { status_code := 500, ok := true, messages := [{ user := "U1", text := "x" }] }
    ⟨Except.ok { status_code := 200, ok := true, channels := [{ name := some "general", id := some "C1" }] },
     fun _ => Except.ok { status_code := 500, ok := true, messages := [{ user := "U1", text := "x" }] }⟩
    { channel := "general" } "C1"
    ⟨fun _ => UserLookup.exn, Except.ok ""⟩
    { channel := "general", slack_messages := some [] }
    (Or.inl (by decide)) rfl (by decide) rfl rfl
  exact ⟨h.2.1, h.2.2.2.1⟩
